import Mathlib

/-
Verification of the image-scraper server (src/unnamed/part_000) against its
natural-language specification.  The JavaScript source is shallowly embedded:
pure fragments become Lean functions, the browser/network environment is an
explicit parameter, machine integers are Nat, and fallible operations return
Option / Except.
-/

set_option maxHeartbeats 1000000

/-! ## String helpers

JavaScript's `String.prototype.startsWith` is modelled on the character list
of a Lean string. -/

/-- Is the first list a prefix of the second? -/
def hasPfx : List Char → List Char → Bool
  | [], _ => true
  | _ :: _, [] => false
  | p :: ps, c :: cs => p = c && hasPfx ps cs

/-- Model of JavaScript `s.startsWith(p)`. -/
def startsW (s p : String) : Bool :=
  hasPfx p.data s.data

/-! ## Data model

`ImageRecord` is the shape produced by the in-page extractor after its
post-processing step (dimensions are already strings such as "120px" or
"Natural"); `SizedImageRecord` is the record after size probing. -/

structure ImageRecord where
  url : String
  width : String
  height : String
  alt : String
  type : String
deriving DecidableEq, Repr

structure SizedImageRecord where
  url : String
  width : String
  height : String
  alt : String
  type : String
  fileSize : String
  fileSizeBytes : Nat
deriving DecidableEq, Repr

/-- The ImageRecord part of a sized record (the fields carried over by the
JavaScript spread from the input record). -/
def baseOf (s : SizedImageRecord) : ImageRecord :=
  ⟨s.url, s.width, s.height, s.alt, s.type⟩

/-! ## URL resolution (source lines 56-66)

The browser builtin `new URL(src, pageUrl).href` is the only throwing
operation inside the try block; it is passed in as a parameter `newURL`,
with `none` standing for a thrown exception (caught at line 63, which
returns the raw string).  `baseUrl.origin` is the `origin` parameter.
JavaScript `!src` is true, for a string, exactly when it is empty. -/

def resolveUrl (newURL : String → String → Option String)
    (origin pageUrl src : String) : String :=
  if src = "" then src
  else if startsW src "data:" then src
  else if startsW src "http" then src
  else if startsW src "//" then "https:" ++ src
  else if startsW src "/" then origin ++ src
  else
    match newURL src pageUrl with
    | some href => href
    | none => src

/-- Absolute http(s) URL: begins with a full http or https scheme marker. -/
def isAbsHttp (s : String) : Bool :=
  startsW s "http://" || startsW s "https://"

/-- A data: URI. -/
def isData (s : String) : Bool :=
  startsW s "data:"

/-- A generic-resolution stand-in that always throws. -/
def noURL : String → String → Option String :=
  fun _ _ => none

/-- A generic-resolution stand-in that resolves by appending to the base,
adequate for relative file names against a base URL ending in a slash. -/
def sampleNewURL : String → String → Option String :=
  fun s b => some (b ++ s)

/-! ## Desktop/mobile merge (source lines 217-259)

`allImages` is a JavaScript `Map` keyed by resolved URL; it is modelled as an
insertion-ordered association list of records.  `Map.set` overwrites the
value of an existing key in place, otherwise appends. -/

def hasUrl (m : List ImageRecord) (u : String) : Bool :=
  m.any (fun r => r.url = u)

/-- Model of `allImages.set(img.url, img)`. -/
def mapSet (m : List ImageRecord) (img : ImageRecord) : List ImageRecord :=
  if hasUrl m img.url then m.map (fun r => if r.url = img.url then img else r)
  else m ++ [img]

/-- Model of `desktopImages.forEach(img => allImages.set(img.url, img))`. -/
def desktopInsert (m : List ImageRecord) : List ImageRecord → List ImageRecord
  | [] => m
  | img :: rest => desktopInsert (mapSet m img) rest

/-- The mobile forEach: insert only if the URL key is absent, counting the
insertions in `newMobileImages`. -/
def mobileInsert (m : List ImageRecord) (n : Nat) :
    List ImageRecord → List ImageRecord × Nat
  | [] => (m, n)
  | img :: rest =>
    if hasUrl m img.url then mobileInsert m n rest
    else mobileInsert (m ++ [img]) (n + 1) rest

/-- The full merge: desktop records first, then mobile records guarded by
key absence; returns the unified record list together with the
new-from-mobile count. -/
def mergeImages (desktop mobile : List ImageRecord) : List ImageRecord × Nat :=
  mobileInsert (desktopInsert [] desktop) 0 mobile

/-- Concrete records for the merge scenario of the specification: desktop
set {A, B}, mobile set {B, C}, where the mobile B carries different
metadata for the same resolved URL. -/
def recA : ImageRecord := ⟨"https://s/a.png", "10px", "10px", "a", "img"⟩

def recB : ImageRecord := ⟨"https://s/b.png", "20px", "20px", "b", "img"⟩

def recBm : ImageRecord := ⟨"https://s/b.png", "5px", "5px", "bm", "img"⟩

def recC : ImageRecord := ⟨"https://s/c.png", "30px", "30px", "c", "img"⟩

/-! ## Data-URI sizing (source lines 272-283)

The two regular expressions are
  /^data:([^;]+);base64,(.+)$/   and   /^data:([^,]+),(.+)$/ .
A negated character class also matches line terminators, while `.` (no /s
flag) excludes the four JavaScript line terminators; `$` (no /m flag) only
matches at the very end of the string.  A greedy `[^;]+` / `[^,]+` followed
by the literal `;` / `,` necessarily ends at the first such character.
JavaScript string length is the UTF-16 code-unit count. -/

/-- Characters matched by an unflagged JavaScript `.`: everything except the
four line terminators. -/
def dotOk (c : Char) : Bool :=
  !(c = '\n' || c = '\r' || c.toNat = 8232 || c.toNat = 8233)

/-- UTF-16 code-unit count of a character list (JavaScript `String.length`). -/
def utf16Len (cs : List Char) : Nat :=
  (cs.map (fun c => if 65536 ≤ c.toNat then 2 else 1)).sum

/-- Model of matching `/^data:([^;]+);base64,(.+)$/` against `s`, returning
the second capture group (the base64 payload). -/
def base64Match (s : String) : Option String :=
  let cs := s.data
  if hasPfx "data:".data cs then
    let rest := cs.drop 5
    let mt := rest.takeWhile (fun c => !(c = ';'))
    if mt.length = 0 then none
    else
      let after := rest.drop mt.length
      if hasPfx ";base64,".data after then
        let payload := after.drop 8
        if payload.length ≠ 0 && payload.all dotOk then some ⟨payload⟩ else none
      else none
  else none

/-- Model of matching `/^data:([^,]+),(.+)$/` against `s`, returning the
second capture group (the literal payload). -/
def dataMatch (s : String) : Option String :=
  let cs := s.data
  if hasPfx "data:".data cs then
    let rest := cs.drop 5
    let mt := rest.takeWhile (fun c => !(c = ','))
    if mt.length = 0 then none
    else
      match rest.drop mt.length with
      | ',' :: payload =>
        if payload.length ≠ 0 && payload.all dotOk then some ⟨payload⟩ else none
      | _ => none
  else none

/-- Hexadecimal digit value, both cases (as accepted by `decodeURIComponent`
escape sequences). -/
def hexv (c : Char) : Option Nat :=
  if '0' ≤ c && c ≤ '9' then some (c.toNat - 48)
  else if 'A' ≤ c && c ≤ 'F' then some (c.toNat - 55)
  else if 'a' ≤ c && c ≤ 'f' then some (c.toNat - 87)
  else none

/-- Consume one `%XX` escape, returning the byte and the remaining input. -/
def pctByte : List Char → Option (Nat × List Char)
  | '%' :: h :: l :: rest =>
    match hexv h, hexv l with
    | some a, some b => some (a * 16 + b, rest)
    | _, _ => none
  | _ => none

/-- Consume `k` UTF-8 continuation bytes, each written as a `%XX` escape,
accumulating the code point. -/
def contByte : Nat → Nat → List Char → Option (Nat × List Char)
  | 0, acc, cs => some (acc, cs)
  | k + 1, acc, cs =>
    match pctByte cs with
    | some (b, rest) =>
      if 128 ≤ b && b < 192 then contByte k (acc * 64 + (b % 64)) rest else none
    | none => none

/-- Decode one escape sequence (one UTF-8 encoded code point) starting at a
`%`, with the validity checks `decodeURIComponent` performs: well-formed
continuation bytes, no overlong encodings, no surrogates, in range. -/
def decSeq (cs : List Char) : Option (Nat × List Char) :=
  match pctByte cs with
  | none => none
  | some (b, rest) =>
    if b < 128 then some (b, rest)
    else if 192 ≤ b && b < 224 then
      match contByte 1 (b % 32) rest with
      | some (cp, r) => if 128 ≤ cp then some (cp, r) else none
      | none => none
    else if 224 ≤ b && b < 240 then
      match contByte 2 (b % 16) rest with
      | some (cp, r) =>
        if 2048 ≤ cp && !(55296 ≤ cp && cp < 57344) then some (cp, r) else none
      | none => none
    else if 240 ≤ b && b < 248 then
      match contByte 3 (b % 8) rest with
      | some (cp, r) => if 65536 ≤ cp && cp ≤ 1114111 then some (cp, r) else none
      | none => none
    else none

/-- Fueled worker for `decodeURIComponentM`; each step consumes at least one
character, so fuel equal to the input length suffices. -/
def decURIAux : Nat → List Char → Option (List Char)
  | _, [] => some []
  | 0, _ :: _ => none
  | fuel + 1, c :: cs =>
    if c = '%' then
      match decSeq (c :: cs) with
      | some (cp, rest) =>
        match decURIAux fuel rest with
        | some tail => some (Char.ofNat cp :: tail)
        | none => none
      | none => none
    else
      match decURIAux fuel cs with
      | some tail => some (c :: tail)
      | none => none

/-- Model of JavaScript `decodeURIComponent`; `none` models a thrown
`URIError` (which the surrounding try/catch turns into an unknown size). -/
def decodeURIComponentM (s : String) : Option String :=
  match decURIAux s.data.length s.data with
  | some cs => some ⟨cs⟩
  | none => none

/-- The data-URI branch of the size probe (source lines 273-283): `none`
models an exception escaping to the outer catch, `some 0` the case where
neither pattern matched and `sizeInBytes` stayed 0. -/
def dataUriSize (url : String) : Option Nat :=
  match base64Match url with
  | some payload => some ((utf16Len payload.data * 3 + 3) / 4)
  | none =>
    match dataMatch url with
    | some payload =>
      match decodeURIComponentM payload with
      | some d => some (utf16Len d.data)
      | none => none
    | none => some 0

/-! ## Network probing (source lines 285-327)

`axios.head` / `axios.get` are modelled by an environment: `none` stands for
a request that throws (network error, timeout, or a status of 500 and above,
which `validateStatus` turns into an exception).  The content-length header
is an Option: `some n` when the header is present with numeric value `n`. -/

structure HeadResp where
  status : Nat
  contentLength : Option Nat
deriving DecidableEq, Repr

structure GetResp where
  status : Nat
  bodyLength : Nat
deriving DecidableEq, Repr

structure NetEnv where
  headResp : Option HeadResp
  getResp : Option GetResp
deriving DecidableEq, Repr

/-- The GET fallback (source lines 307-326): a thrown GET propagates to the
outer catch (`none`); a non-200 GET leaves `sizeInBytes` at 0. -/
def fallbackGet (net : NetEnv) : Option Nat :=
  match net.getResp with
  | some g => some (if g.status = 200 then g.bodyLength else 0)
  | none => none

/-- Value of `sizeInBytes` as computed by source lines 270-327; `none` models an
exception reaching the outer per-image catch (lines 341-344). -/
def computeSize (net : NetEnv) (url : String) : Option Nat :=
  if startsW url "data:" then dataUriSize url
  else
    match net.headResp with
    | some r =>
      if r.status = 200 then
        match r.contentLength with
        | some cl => some cl
        | none => fallbackGet net
      else fallbackGet net
    | none => fallbackGet net

/-! ## Record assembly (source lines 329-344) -/

/-- Two-decimal rendering of num/den, modelling `(num / den).toFixed(2)`
(exact rational rounding half-up; the float computation agrees on all values
the claims exercise). -/
def fix2 (num den : Nat) : String :=
  let scaled := (num * 200 + den) / (2 * den)
  toString (scaled / 100) ++ "." ++
    (if scaled % 100 < 10 then "0" ++ toString (scaled % 100)
     else toString (scaled % 100))

/-- The record returned on the per-image failure path (lines 330 and 343). -/
def unknownSized (img : ImageRecord) : SizedImageRecord :=
  ⟨img.url, img.width, img.height, img.alt, img.type, "Unknown", 0⟩

/-- Lines 329-340: zero bytes renders "Unknown"; otherwise MB strictly above
1024*1024 bytes, else KB. -/
def formatRecord (img : ImageRecord) (sizeInBytes : Nat) : SizedImageRecord :=
  if sizeInBytes = 0 then unknownSized img
  else
    ⟨img.url, img.width, img.height, img.alt, img.type,
     if sizeInBytes > 1048576 then fix2 sizeInBytes 1048576 ++ " MB"
     else fix2 sizeInBytes 1024 ++ " KB",
     sizeInBytes⟩

/-- One element of the `Promise.all` fan-out: the whole body of the mapped
async function for one image record. -/
def probeRecord (net : NetEnv) (img : ImageRecord) : SizedImageRecord :=
  match computeSize net img.url with
  | some n => formatRecord img n
  | none => unknownSized img

/-- The list `imagesWithSizes` (source lines 267-346): `Promise.all` over the mapped
probes, with the network environment keyed by image URL. -/
def sizedImages (net : String → NetEnv) (imgs : List ImageRecord) :
    List SizedImageRecord :=
  imgs.map (fun img => probeRecord (net img.url) img)

/-- A network environment in which every request throws. -/
def noNet : String → NetEnv :=
  fun _ => ⟨none, none⟩

/-! ## The scrape request handler (source lines 171-359)

Only the parts the claims are about are modelled: the two sequential
navigations (each of which can fail with an error message), the two
extraction results, and the probe environment.  A page variable is null
(`absent`), holds an open page (`opened`), or holds a page that has been
closed (`closed`).  Opening a page always succeeds.  `page.close()`
succeeds on an open page; calling it again on an already-closed page
throws (puppeteer asserts the page connection: "Protocol error: Connection
closed. Most likely the page has been closed.").  The catch block at lines
353-358 runs `if (desktopPage) await desktopPage.close()`, then the same
for `mobilePage`, then sends the wrapped 500; a throw from either close
aborts the rest of the catch block, so no response is sent at all
(`noResponse`).  Note that the success path at line 220 closes the desktop
page without nulling the variable, so a later mobile navigation error
leads the catch block to re-close it. -/

structure ScrapeEnv where
  desktopNav : Except String Unit
  mobileNav : Except String Unit
  desktopImages : List ImageRecord
  mobileImages : List ImageRecord
  net : String → NetEnv

inductive ScrapeResp where
  | ok : List SizedImageRecord → Nat → ScrapeResp
  | err : String → ScrapeResp
  | noResponse : ScrapeResp
deriving DecidableEq, Repr

/-- State of one page variable of the handler. -/
inductive PageRes where
  | absent
  | opened
  | closed
deriving DecidableEq, Repr

/-- One `if (page) await page.close()` statement of the catch block:
skipped on a null variable, closes an open page, throws (`none`) on an
already-closed page. -/
def catchClose : PageRes → Option PageRes
  | PageRes.absent => some PageRes.absent
  | PageRes.opened => some PageRes.closed
  | PageRes.closed => none

/-- The catch block (lines 353-358), entered with the current states of the
two page variables and the caught error message: close desktopPage, close
mobilePage, respond with the wrapped message; a throw aborts the remaining
statements and no response is sent. -/
def scrapeCatch (d m : PageRes) (msg : String) :
    ScrapeResp × PageRes × PageRes :=
  match catchClose d with
  | none => (ScrapeResp.noResponse, d, m)
  | some d2 =>
    match catchClose m with
    | none => (ScrapeResp.noResponse, d2, m)
    | some m2 => (ScrapeResp.err ("Failed to scrape images: " ++ msg), d2, m2)

/-- The handler body: on a desktop navigation error the catch sees an open
desktop page and a null mobile variable; after desktop success line 220
closes the desktop page (variable not nulled), so on a mobile navigation
error the catch sees a closed desktop page and an open mobile page; on
success both pages were closed inline (lines 220 and 261).  Returns the
response together with the final states of the two page variables. -/
def scrapeHandler (env : ScrapeEnv) : ScrapeResp × PageRes × PageRes :=
  match env.desktopNav with
  | Except.error msg => scrapeCatch PageRes.opened PageRes.absent msg
  | Except.ok _ =>
    match env.mobileNav with
    | Except.error msg => scrapeCatch PageRes.closed PageRes.opened msg
    | Except.ok _ =>
      let merged := mergeImages env.desktopImages env.mobileImages
      let sized := sizedImages env.net merged.1
      (ScrapeResp.ok sized sized.length, PageRes.closed, PageRes.closed)

/-! ## General lemmas -/

theorem strData_append (s t : String) : (s ++ t).data = s.data ++ t.data := by
  cases s; cases t; rfl

theorem hasPfx_append (p a b : List Char) (h : hasPfx p a = true) :
    hasPfx p (a ++ b) = true := by
  induction p generalizing a with
  | nil => rfl
  | cons x xs ih =>
    cases a with
    | nil => simp [hasPfx] at h
    | cons c cs =>
      simp only [hasPfx, Bool.and_eq_true] at h ⊢
      exact ⟨h.1, ih cs h.2⟩

theorem hasPfx_append_cancel (x y z : List Char) :
    hasPfx (x ++ y) (x ++ z) = hasPfx y z := by
  induction x with
  | nil => rfl
  | cons c cs ih => simp [hasPfx, ih]

theorem hasPfx_cons (p : Char) (ps cs : List Char)
    (h : hasPfx (p :: ps) cs = true) :
    ∃ t, cs = p :: t ∧ hasPfx ps t = true := by
  cases cs with
  | nil => simp [hasPfx] at h
  | cons c t =>
    simp only [hasPfx, Bool.and_eq_true, decide_eq_true_eq] at h
    exact ⟨t, by rw [h.1], h.2⟩

/-- If a string does not start with "/", it does not start with "//". -/
theorem startsW_slash2 (src : String) (h : startsW src "/" = false) :
    startsW src "//" = false := by
  unfold startsW at h ⊢
  cases hd : src.data with
  | nil => rfl
  | cons c t =>
    rw [hd] at h
    simp only [hasPfx, Bool.and_eq_true] at h ⊢
    show (decide ('/' = c) && hasPfx ['/'] t) = false
    cases hc : decide ('/' = c) with
    | false => rfl
    | true =>
      exfalso
      have : (decide ('/' = c) && hasPfx [] t) = false := h
      rw [hc] at this
      simp [hasPfx] at this

theorem append_ne (s t u : String)
    (h : u.data.drop (u.data.length - t.data.length) ≠ t.data) : s ++ t ≠ u := by
  intro he
  have hd : s.data ++ t.data = u.data := by rw [← strData_append, he]
  have hlen : s.data.length + t.data.length = u.data.length := by
    rw [← hd]; simp
  have hk : u.data.length - t.data.length = s.data.length := by omega
  rw [hk] at h
  exact h (by rw [← hd, List.drop_left])

theorem kb_ne_unknown (s : String) : s ++ " KB" ≠ "Unknown" :=
  append_ne s " KB" "Unknown" (by decide)

theorem mb_ne_unknown (s : String) : s ++ " MB" ≠ "Unknown" :=
  append_ne s " MB" "Unknown" (by decide)

theorem mb_ne_1024kb (s : String) : s ++ " MB" ≠ "1024.00 KB" :=
  append_ne s " MB" "1024.00 KB" (by decide)

/-! ## Record assembly lemmas -/

theorem formatRecord_bytes (img : ImageRecord) (n : Nat) :
    (formatRecord img n).fileSizeBytes = n := by
  unfold formatRecord unknownSized
  split
  · simp_all
  · rfl

theorem baseOf_formatRecord (img : ImageRecord) (n : Nat) :
    baseOf (formatRecord img n) = img := by
  unfold formatRecord unknownSized baseOf
  split <;> rfl

theorem baseOf_probeRecord (net : NetEnv) (img : ImageRecord) :
    baseOf (probeRecord net img) = img := by
  unfold probeRecord
  rcases computeSize net img.url with _ | n
  · rfl
  · exact baseOf_formatRecord img n

theorem formatRecord_fileSize_ne (img : ImageRecord) (n : Nat) (hn : n ≠ 0) :
    (formatRecord img n).fileSize ≠ "Unknown" := by
  unfold formatRecord
  rw [if_neg hn]
  show (if n > 1048576 then fix2 n 1048576 ++ " MB" else fix2 n 1024 ++ " KB") ≠ "Unknown"
  split
  · exact mb_ne_unknown _
  · exact kb_ne_unknown _

/-! ## Claims -/

/-- Claim C10: every image record entering the size-probing step comes out
with the same url, width, height, alt and type fields, only fileSize and
fileSizeBytes being added, on the success, unknown-size, and per-probe
failure paths alike; mapping each sized record back to its ImageRecord part
recovers the input list exactly. -/
theorem c10_assembler_frame (net : String → NetEnv) (imgs : List ImageRecord) :
    (sizedImages net imgs).map baseOf = imgs := by
  induction imgs with
  | nil => rfl
  | cons a as ih =>
    simp only [sizedImages, List.map_cons, List.map_map] at ih ⊢
    rw [baseOf_probeRecord]
    exact congrArg (a :: ·) ih

/-- Claim C8: a produced SizedImageRecord has fileSize "Unknown" exactly when
fileSizeBytes is 0, and fileSizeBytes is 0 exactly when the size computation
threw (probe failure, malformed data URI) or produced 0 (size unknowable). -/
theorem c8_unknown_iff (net : NetEnv) (img : ImageRecord) :
    ((probeRecord net img).fileSize = "Unknown" ↔
      (probeRecord net img).fileSizeBytes = 0)
    ∧ ((probeRecord net img).fileSizeBytes = 0 ↔
      (computeSize net img.url = none ∨ computeSize net img.url = some 0)) := by
  rcases hc : computeSize net img.url with _ | n
  · simp [probeRecord, hc, unknownSized]
  · rcases Nat.eq_zero_or_pos n with hn | hn
    · subst hn
      simp [probeRecord, hc, formatRecord, unknownSized]
    · have hn0 : n ≠ 0 := Nat.pos_iff_ne_zero.mp hn
      have hb : (probeRecord net img).fileSizeBytes = n := by
        simp [probeRecord, hc, formatRecord_bytes]
      have hf : (probeRecord net img).fileSize ≠ "Unknown" := by
        simp only [probeRecord, hc]
        exact formatRecord_fileSize_ne img n hn0
      constructor
      · constructor
        · intro h; exact absurd h hf
        · intro h; rw [hb] at h; exact absurd h hn0
      · constructor
        · intro h; rw [hb] at h; exact absurd h hn0
        · intro h
          rcases h with h | h
          · exact Option.noConfusion h
          · injection h with h2
            exact absurd h2 hn0

/-- Claim C4 (amended): the size display renders 0 as "Unknown", renders
byte counts strictly above 1,048,576 in MB with two decimals, renders
counts from 1 up to and including 1,048,576 in KB with two decimals, and
reports the byte count unchanged. -/
theorem c4_thresholds (img : ImageRecord) (n : Nat) :
    (n = 0 → (formatRecord img n).fileSize = "Unknown")
    ∧ (1048576 < n → ∃ s, (formatRecord img n).fileSize = s ++ " MB")
    ∧ (0 < n → n ≤ 1048576 → ∃ s, (formatRecord img n).fileSize = s ++ " KB")
    ∧ (formatRecord img n).fileSizeBytes = n := by
  refine ⟨?_, ?_, ?_, formatRecord_bytes img n⟩
  · intro h; subst h; rfl
  · intro h
    have hn0 : ¬ n = 0 := by omega
    unfold formatRecord
    rw [if_neg hn0]
    show (∃ s, (if n > 1048576 then fix2 n 1048576 ++ " MB"
                else fix2 n 1024 ++ " KB") = s ++ " MB")
    rw [if_pos h]
    exact ⟨fix2 n 1048576, rfl⟩
  · intro h1 h2
    have hn0 : ¬ n = 0 := by omega
    have hng : ¬ n > 1048576 := by omega
    unfold formatRecord
    rw [if_neg hn0]
    show (∃ s, (if n > 1048576 then fix2 n 1048576 ++ " MB"
                else fix2 n 1024 ++ " KB") = s ++ " KB")
    rw [if_neg hng]
    exact ⟨fix2 n 1024, rfl⟩

theorem c4_thresholds_witness :
    (formatRecord ⟨"u", "w", "h", "a", "img"⟩ 0).fileSize = "Unknown"
    ∧ (∃ s, (formatRecord ⟨"u", "w", "h", "a", "img"⟩ 2097152).fileSize = s ++ " MB")
    ∧ (∃ s, (formatRecord ⟨"u", "w", "h", "a", "img"⟩ 512).fileSize = s ++ " KB") :=
  ⟨(c4_thresholds ⟨"u", "w", "h", "a", "img"⟩ 0).1 rfl,
   (c4_thresholds ⟨"u", "w", "h", "a", "img"⟩ 2097152).2.1 (by omega),
   (c4_thresholds ⟨"u", "w", "h", "a", "img"⟩ 512).2.2.1 (by omega) (by omega)⟩

/-- Counterexample to claim C4 as stated: a count of exactly 1,048,576 bytes
renders "1024.00 KB", not a MB display. -/
theorem c4_counterexample :
    (formatRecord ⟨"u", "w", "h", "a", "img"⟩ 1048576).fileSize = "1024.00 KB"
    ∧ ¬ ∃ s, (formatRecord ⟨"u", "w", "h", "a", "img"⟩ 1048576).fileSize = s ++ " MB" := by
  have h1 : (formatRecord ⟨"u", "w", "h", "a", "img"⟩ 1048576).fileSize
      = "1024.00 KB" := by decide
  refine ⟨h1, ?_⟩
  rintro ⟨s, hs⟩
  rw [h1] at hs
  exact mb_ne_1024kb s hs.symm

/-- Claim C5: for a data: URI, the size is ceil(payloadLength*3/4) when the
base64 pattern matches, the length (in UTF-16 units, JavaScript string
length) of the URL-decoded payload when only the literal pattern matches and
decoding succeeds, and 0 when neither pattern matches; the probe uses this
computation for every data: URL. -/
theorem c5_data_sizing (url : String) :
    (∀ p, base64Match url = some p →
      dataUriSize url = some ((utf16Len p.data * 3 + 3) / 4))
    ∧ (∀ p d, base64Match url = none → dataMatch url = some p →
      decodeURIComponentM p = some d → dataUriSize url = some (utf16Len d.data))
    ∧ (base64Match url = none → dataMatch url = none → dataUriSize url = some 0)
    ∧ (∀ net, startsW url "data:" = true → computeSize net url = dataUriSize url) := by
  refine ⟨?_, ?_, ?_, ?_⟩
  · intro p hp
    simp [dataUriSize, hp]
  · intro p d hb hp hd
    simp [dataUriSize, hb, hp, hd]
  · intro hb hp
    simp [dataUriSize, hb, hp]
  · intro net h
    unfold computeSize
    rw [if_pos h]

theorem c5_data_sizing_witness :
    base64Match "data:image/png;base64,QUJD" = some "QUJD"
    ∧ dataUriSize "data:image/png;base64,QUJD"
        = some ((utf16Len "QUJD".data * 3 + 3) / 4)
    ∧ (utf16Len "QUJD".data * 3 + 3) / 4 = 3
    ∧ computeSize ⟨none, none⟩ "data:image/png;base64,QUJD"
        = dataUriSize "data:image/png;base64,QUJD" :=
  ⟨by decide,
   (c5_data_sizing "data:image/png;base64,QUJD").1 "QUJD" (by decide),
   by decide,
   (c5_data_sizing "data:image/png;base64,QUJD").2.2.2 ⟨none, none⟩ (by decide)⟩

/-- Claim C6: for a non-data: URL, the HEAD content-length is used as the
size exactly when the HEAD status is 200 and the header is present; in every
other HEAD outcome (thrown request, non-200 status, missing header) the
probe falls back to GET, and a thrown or non-200 GET leaves the record at
fileSizeBytes 0 / fileSize "Unknown" instead of failing the request. -/
theorem c6_head_get_fallback (net : NetEnv) (img : ImageRecord)
    (h : startsW img.url "data:" = false) :
    (∀ r cl, net.headResp = some r → r.status = 200 → r.contentLength = some cl →
      computeSize net img.url = some cl)
    ∧ (net.headResp = none → computeSize net img.url = fallbackGet net)
    ∧ (∀ r, net.headResp = some r → r.status ≠ 200 →
      computeSize net img.url = fallbackGet net)
    ∧ (∀ r, net.headResp = some r → r.contentLength = none →
      computeSize net img.url = fallbackGet net)
    ∧ (net.getResp = none → fallbackGet net = none)
    ∧ (∀ g, net.getResp = some g → g.status ≠ 200 → fallbackGet net = some 0)
    ∧ (computeSize net img.url = none → probeRecord net img = unknownSized img)
    ∧ (computeSize net img.url = some 0 → probeRecord net img = unknownSized img) := by
  refine ⟨?_, ?_, ?_, ?_, ?_, ?_, ?_, ?_⟩
  · intro r cl hr hs hcl
    simp [computeSize, h, hr, hs, hcl]
  · intro hr
    simp [computeSize, h, hr]
  · intro r hr hs
    simp [computeSize, h, hr, hs]
  · intro r hr hcl
    rcases Nat.decEq r.status 200 with hs | hs
    · simp [computeSize, h, hr, hs]
    · simp [computeSize, h, hr, hs, hcl]
  · intro hg
    simp [fallbackGet, hg]
  · intro g hg hs
    simp [fallbackGet, hg, hs]
  · intro hc
    simp [probeRecord, hc]
  · intro hc
    simp [probeRecord, hc, formatRecord]

theorem c6_head_get_fallback_witness :
    computeSize ⟨some ⟨404, none⟩, none⟩ "https://x/a.png"
      = fallbackGet ⟨some ⟨404, none⟩, none⟩
    ∧ fallbackGet ⟨some ⟨404, none⟩, none⟩ = none
    ∧ probeRecord ⟨some ⟨404, none⟩, none⟩ ⟨"https://x/a.png", "w", "h", "a", "img"⟩
      = unknownSized ⟨"https://x/a.png", "w", "h", "a", "img"⟩ := by
  have T := c6_head_get_fallback ⟨some ⟨404, none⟩, none⟩
    ⟨"https://x/a.png", "w", "h", "a", "img"⟩ (by decide)
  exact ⟨T.2.2.1 ⟨404, none⟩ rfl (by decide),
         T.2.2.2.2.1 rfl,
         T.2.2.2.2.2.2.1 (by decide)⟩

/-- Claim C7: the size-probing fan-out returns exactly one sized record per
input record (no entries dropped), the record at each position depends only
on that position's input record and its own probe outcome, and an individual
probe failure only downgrades that record to 0/"Unknown". -/
theorem c7_batch (net : String → NetEnv) (imgs : List ImageRecord) :
    (sizedImages net imgs).length = imgs.length
    ∧ (∀ i : Nat, (sizedImages net imgs)[i]? =
        (imgs[i]?).map (fun img => probeRecord (net img.url) img))
    ∧ (∀ (i : Nat) (img : ImageRecord),
        imgs[i]? = some img → computeSize (net img.url) img.url = none →
        (sizedImages net imgs)[i]? = some (unknownSized img)) := by
  refine ⟨by simp [sizedImages], ?_, ?_⟩
  · intro i
    simp [sizedImages, List.getElem?_map]
  · intro i img h hc
    simp [sizedImages, List.getElem?_map, h, probeRecord, hc]

theorem c7_batch_witness :
    ([(⟨"https://x/a.png", "w", "h", "a", "img"⟩ : ImageRecord)][0]?
       = some ⟨"https://x/a.png", "w", "h", "a", "img"⟩)
    ∧ computeSize (noNet "https://x/a.png") "https://x/a.png" = none
    ∧ (sizedImages noNet [⟨"https://x/a.png", "w", "h", "a", "img"⟩])[0]?
       = some (unknownSized ⟨"https://x/a.png", "w", "h", "a", "img"⟩) :=
  ⟨rfl, by decide,
   (c7_batch noNet [⟨"https://x/a.png", "w", "h", "a", "img"⟩]).2.2 0
     ⟨"https://x/a.png", "w", "h", "a", "img"⟩ rfl (by decide)⟩

/-- Claim C9: refuted by the code on the mobile-failure path.  When the
desktop pass succeeds and the mobile navigation throws, the catch block
re-closes the already-closed desktop page (the variable was never nulled
after line 220); that close throws, aborting the catch before
mobilePage.close() and before the wrapped 500 is sent: the mobile page is
left open and no scrape-failure response is produced.  On the
desktop-failure path the claimed behaviour does hold: the open desktop
page is released and the single wrapped message is sent. -/
theorem c9_mobile_failure_bug :
    scrapeHandler ⟨Except.ok (), Except.error "Navigation timeout", [], [], noNet⟩
      = (ScrapeResp.noResponse, PageRes.closed, PageRes.opened)
    ∧ scrapeHandler ⟨Except.error "net down", Except.ok (), [], [], noNet⟩
      = (ScrapeResp.err ("Failed to scrape images: " ++ "net down"),
         PageRes.closed, PageRes.absent) :=
  ⟨rfl, rfl⟩

/-- Any string beginning with "https:" followed by "//" is an https URL. -/
theorem startsW_https_of_slash2 (src : String) (h : startsW src "//" = true) :
    startsW ("https:" ++ src) "https://" = true := by
  unfold startsW at h ⊢
  rw [strData_append]
  have hsplit : "https://".data = "https:".data ++ "//".data := rfl
  rw [hsplit, hasPfx_append_cancel]
  exact h

theorem isAbsHttp_append (origin s : String) (h : isAbsHttp origin = true) :
    isAbsHttp (origin ++ s) = true := by
  unfold isAbsHttp startsW at h ⊢
  rw [strData_append]
  rcases Bool.or_eq_true_iff.mp h with h1 | h1
  · exact Bool.or_eq_true_iff.mpr (Or.inl (hasPfx_append _ _ _ h1))
  · exact Bool.or_eq_true_iff.mpr (Or.inr (hasPfx_append _ _ _ h1))

/-- Claim C2 (amended): every resolved URL is an absolute http(s) URL, a
data: URI, the result of the browser's generic relative-URL resolution, or
the raw candidate string itself (candidates beginning with "http" are passed
through unchanged, and a failed generic resolution falls back to the raw
string). -/
theorem c2_resolved_shape (newURL : String → String → Option String)
    (origin pageUrl src : String) (h0 : isAbsHttp origin = true) :
    isData (resolveUrl newURL origin pageUrl src) = true
    ∨ isAbsHttp (resolveUrl newURL origin pageUrl src) = true
    ∨ resolveUrl newURL origin pageUrl src = src
    ∨ (∃ r, newURL src pageUrl = some r
        ∧ resolveUrl newURL origin pageUrl src = r) := by
  unfold resolveUrl
  split_ifs with h1 h2 h3 h4 h5
  · exact Or.inr (Or.inr (Or.inl rfl))
  · exact Or.inl h2
  · exact Or.inr (Or.inr (Or.inl rfl))
  · refine Or.inr (Or.inl ?_)
    unfold isAbsHttp
    rw [startsW_https_of_slash2 src h4]
    simp
  · exact Or.inr (Or.inl (isAbsHttp_append origin src h0))
  · rcases hnu : newURL src pageUrl with _ | r
    · exact Or.inr (Or.inr (Or.inl rfl))
    · exact Or.inr (Or.inr (Or.inr ⟨r, rfl, rfl⟩))

theorem c2_resolved_shape_witness :
    isData (resolveUrl noURL "https://example.com" "https://example.com/" "images/a.png") = true
    ∨ isAbsHttp (resolveUrl noURL "https://example.com" "https://example.com/" "images/a.png") = true
    ∨ resolveUrl noURL "https://example.com" "https://example.com/" "images/a.png" = "images/a.png"
    ∨ (∃ r, noURL "images/a.png" "https://example.com/" = some r
        ∧ resolveUrl noURL "https://example.com" "https://example.com/" "images/a.png" = r) :=
  c2_resolved_shape noURL "https://example.com" "https://example.com/" "images/a.png" rfl

/-- Counterexample to claim C2 as stated: the candidate "httpx.png" — a bare
relative path that merely begins with the letters "http" — is returned
unchanged by the resolver: neither an absolute http(s) URL nor a data: URI. -/
theorem c2_counterexample :
    resolveUrl noURL "https://example.com" "https://example.com/" "httpx.png" = "httpx.png"
    ∧ isAbsHttp "httpx.png" = false
    ∧ isData "httpx.png" = false :=
  ⟨rfl, rfl, rfl⟩

theorem str_ne_empty_of_cons (src : String) (c : Char) (t : List Char)
    (h : src.data = c :: t) : src ≠ "" := by
  intro he
  rw [he] at h
  exact List.noConfusion h

theorem startsW_ne_head (src pfx : String) (c p : Char) (t ps : List Char)
    (hs : src.data = c :: t) (hp : pfx.data = p :: ps) (hne : ¬ p = c) :
    startsW src pfx = false := by
  unfold startsW
  rw [hs, hp]
  show (decide (p = c) && hasPfx ps t) = false
  rw [decide_eq_false hne]
  rfl

/-- Claim C3 (amended): resolution leaves data: URIs unchanged, leaves every
candidate beginning with "http" unchanged (absolute http(s) URLs in
particular), prefixes a value that begins with two slashes with https:, prepends the page
origin to a value that begins with a single slash, resolves any other non-empty value against the
page URL with the raw string as fallback on failure, and returns an empty
candidate unchanged. -/
theorem c3_resolution_cases (newURL : String → String → Option String)
    (origin pageUrl src : String) :
    (startsW src "data:" = true → resolveUrl newURL origin pageUrl src = src)
    ∧ (startsW src "http" = true → resolveUrl newURL origin pageUrl src = src)
    ∧ (startsW src "//" = true →
        resolveUrl newURL origin pageUrl src = "https:" ++ src)
    ∧ (startsW src "/" = true → startsW src "//" = false →
        resolveUrl newURL origin pageUrl src = origin ++ src)
    ∧ (src ≠ "" → startsW src "data:" = false → startsW src "http" = false →
        startsW src "/" = false →
        resolveUrl newURL origin pageUrl src = (newURL src pageUrl).getD src)
    ∧ (src = "" → resolveUrl newURL origin pageUrl src = src) := by
  refine ⟨?_, ?_, ?_, ?_, ?_, ?_⟩
  · intro h
    have h' : hasPfx ('d' :: ['a', 't', 'a', ':']) src.data = true := h
    obtain ⟨t, ht, _⟩ := hasPfx_cons _ _ _ h'
    unfold resolveUrl
    rw [if_neg (str_ne_empty_of_cons src _ _ ht), if_pos h]
  · intro h
    have h' : hasPfx ('h' :: ['t', 't', 'p']) src.data = true := h
    obtain ⟨t, ht, _⟩ := hasPfx_cons _ _ _ h'
    have hdata : startsW src "data:" = false :=
      startsW_ne_head src "data:" 'h' 'd' t _ ht rfl (by decide)
    unfold resolveUrl
    rw [if_neg (str_ne_empty_of_cons src _ _ ht), if_neg (by simp [hdata]),
      if_pos h]
  · intro h
    have h' : hasPfx ('/' :: ['/']) src.data = true := h
    obtain ⟨t, ht, _⟩ := hasPfx_cons _ _ _ h'
    have hdata : startsW src "data:" = false :=
      startsW_ne_head src "data:" '/' 'd' t _ ht rfl (by decide)
    have hhttp : startsW src "http" = false :=
      startsW_ne_head src "http" '/' 'h' t _ ht rfl (by decide)
    unfold resolveUrl
    rw [if_neg (str_ne_empty_of_cons src _ _ ht), if_neg (by simp [hdata]),
      if_neg (by simp [hhttp]), if_pos h]
  · intro h1 h2
    have h' : hasPfx ('/' :: []) src.data = true := h1
    obtain ⟨t, ht, _⟩ := hasPfx_cons _ _ _ h'
    have hdata : startsW src "data:" = false :=
      startsW_ne_head src "data:" '/' 'd' t _ ht rfl (by decide)
    have hhttp : startsW src "http" = false :=
      startsW_ne_head src "http" '/' 'h' t _ ht rfl (by decide)
    unfold resolveUrl
    rw [if_neg (str_ne_empty_of_cons src _ _ ht), if_neg (by simp [hdata]),
      if_neg (by simp [hhttp]), if_neg (by simp [h2]), if_pos h1]
  · intro hne hdata hhttp hslash
    have h2 : startsW src "//" = false := startsW_slash2 src hslash
    unfold resolveUrl
    rw [if_neg hne, if_neg (by simp [hdata]), if_neg (by simp [hhttp]),
      if_neg (by simp [h2]), if_neg (by simp [hslash])]
    rcases hnu : newURL src pageUrl with _ | r <;> simp [hnu]
  · intro h
    subst h
    rfl

theorem c3_resolution_cases_witness :
    resolveUrl sampleNewURL "https://example.com" "https://example.com/"
      "data:image/png;base64,QQ" = "data:image/png;base64,QQ"
    ∧ resolveUrl sampleNewURL "https://example.com" "https://example.com/"
      "http://a/b.png" = "http://a/b.png"
    ∧ resolveUrl sampleNewURL "https://example.com" "https://example.com/"
      "//cdn.x/y.png" = "https:" ++ "//cdn.x/y.png"
    ∧ resolveUrl sampleNewURL "https://example.com" "https://example.com/"
      "/z.png" = "https://example.com" ++ "/z.png"
    ∧ resolveUrl sampleNewURL "https://example.com" "https://example.com/"
      "w.png" = (sampleNewURL "w.png" "https://example.com/").getD "w.png" :=
  ⟨(c3_resolution_cases sampleNewURL "https://example.com" "https://example.com/"
      "data:image/png;base64,QQ").1 rfl,
   (c3_resolution_cases sampleNewURL "https://example.com" "https://example.com/"
      "http://a/b.png").2.1 rfl,
   (c3_resolution_cases sampleNewURL "https://example.com" "https://example.com/"
      "//cdn.x/y.png").2.2.1 rfl,
   (c3_resolution_cases sampleNewURL "https://example.com" "https://example.com/"
      "/z.png").2.2.2.1 rfl rfl,
   (c3_resolution_cases sampleNewURL "https://example.com" "https://example.com/"
      "w.png").2.2.2.2.1 (by decide) rfl rfl rfl⟩

/-- Counterexample to claim C3 as stated: "httpfoo.gif" is not a data: URI,
not an absolute http(s) URL, and does not begin with a slash, so the claim
classifies it as "any other value" to be resolved against the page URL; the
code instead returns it unchanged because it begins with the letters
"http". -/
theorem c3_counterexample :
    isData "httpfoo.gif" = false
    ∧ isAbsHttp "httpfoo.gif" = false
    ∧ startsW "httpfoo.gif" "/" = false
    ∧ sampleNewURL "httpfoo.gif" "https://example.com/"
        = some "https://example.com/httpfoo.gif"
    ∧ resolveUrl sampleNewURL "https://example.com" "https://example.com/"
        "httpfoo.gif" = "httpfoo.gif"
    ∧ ("httpfoo.gif" : String) ≠ "https://example.com/httpfoo.gif" :=
  ⟨rfl, rfl, rfl, rfl, rfl, by decide⟩

/-! ## Merge lemmas -/

theorem hasUrl_iff (m : List ImageRecord) (u : String) :
    hasUrl m u = true ↔ u ∈ m.map (fun r => r.url) := by
  simp [hasUrl, List.any_eq_true, List.mem_map]

theorem hasUrl_append (m1 m2 : List ImageRecord) (u : String) :
    hasUrl (m1 ++ m2) u = (hasUrl m1 u || hasUrl m2 u) := by
  simp [hasUrl, List.any_append]

theorem mapSet_fresh (m : List ImageRecord) (img : ImageRecord)
    (h : hasUrl m img.url = false) : mapSet m img = m ++ [img] := by
  unfold mapSet
  rw [if_neg (by simp [h])]

theorem desktopInsert_eq (m d : List ImageRecord)
    (h : ((m ++ d).map (fun r => r.url)).Nodup) : desktopInsert m d = m ++ d := by
  induction d generalizing m with
  | nil => simp [desktopInsert]
  | cons img rest ih =>
    have hfresh : hasUrl m img.url = false := by
      rw [List.map_append] at h
      rcases List.nodup_append.mp h with ⟨_, _, h3⟩
      cases he : hasUrl m img.url
      · rfl
      · exfalso
        have hmem : img.url ∈ m.map (fun r => r.url) := (hasUrl_iff m img.url).mp he
        exact h3 hmem (by simp)
    rw [desktopInsert, mapSet_fresh m img hfresh]
    have h2 : (((m ++ [img]) ++ rest).map (fun r => r.url)).Nodup := by
      rw [List.append_assoc]
      simpa using h
    rw [ih (m ++ [img]) h2, List.append_assoc]
    rfl

theorem mobileInsert_eq (mob : List ImageRecord)
    (hmob : (mob.map (fun r => r.url)).Nodup) (m : List ImageRecord) (n : Nat) :
    mobileInsert m n mob =
      (m ++ mob.filter (fun i => !(hasUrl m i.url)),
       n + (mob.filter (fun i => !(hasUrl m i.url))).length) := by
  induction mob generalizing m n with
  | nil => simp [mobileInsert]
  | cons img rest ih =>
    rw [List.map_cons, List.nodup_cons] at hmob
    obtain ⟨hnotin, hrest⟩ := hmob
    cases hc : hasUrl m img.url
    · rw [mobileInsert, if_neg (by simp [hc]), ih hrest (m ++ [img]) (n + 1)]
      have hfe : List.filter (fun i => !(hasUrl (m ++ [img]) i.url)) rest
          = List.filter (fun i => !(hasUrl m i.url)) rest := by
        apply List.filter_congr
        intro i hi
        rw [hasUrl_append]
        have hne : ¬ img.url = i.url := by
          intro he
          exact hnotin (by rw [he]; exact List.mem_map.mpr ⟨i, hi, rfl⟩)
        have hone : hasUrl [img] i.url = false := by
          simp [hasUrl, hne]
        rw [hone, Bool.or_false]
      have hflt : List.filter (fun i => !(hasUrl m i.url)) (img :: rest)
          = img :: List.filter (fun i => !(hasUrl m i.url)) rest := by
        rw [List.filter_cons]
        simp [hc]
      rw [hfe, hflt, Prod.mk.injEq]
      constructor
      · rw [List.append_assoc]
        rfl
      · simp
        omega
    · rw [mobileInsert, if_pos hc, ih hrest m n]
      have hflt : List.filter (fun i => !(hasUrl m i.url)) (img :: rest)
          = List.filter (fun i => !(hasUrl m i.url)) rest := by
        rw [List.filter_cons]
        simp [hc]
      rw [hflt]

theorem find?_mem_nodup (d : List ImageRecord) (r : ImageRecord)
    (hd : (d.map (fun x => x.url)).Nodup) (hr : r ∈ d) :
    List.find? (fun x => x.url = r.url) d = some r := by
  induction d with
  | nil => cases hr
  | cons a rest ih =>
    rw [List.map_cons, List.nodup_cons] at hd
    obtain ⟨hnotin, hrest⟩ := hd
    rcases List.mem_cons.mp hr with he | hmem
    · subst he
      rw [List.find?_cons]
      simp
    · have hne : ¬ a.url = r.url := by
        intro he
        exact hnotin (by rw [he]; exact List.mem_map.mpr ⟨r, hmem, rfl⟩)
      rw [List.find?_cons]
      simp [hne, ih hrest hmem]

/-- Claim C1: the merge inserts all desktop records first and a mobile
record only when its resolved URL is absent, so the unified list is the
desktop list followed by exactly the mobile records with fresh URLs, the
new-from-mobile count is the number of those fresh records, the unified URL
set has no duplicates, and an overlapping URL keeps exactly the
desktop-derived record (its width/height/alt/kind fields included). -/
theorem c1_merge (d mob : List ImageRecord)
    (hd : (d.map (fun r => r.url)).Nodup)
    (hm : (mob.map (fun r => r.url)).Nodup) :
    (mergeImages d mob).1 = d ++ mob.filter (fun i => !(hasUrl d i.url))
    ∧ (mergeImages d mob).2 = (mob.filter (fun i => !(hasUrl d i.url))).length
    ∧ ((mergeImages d mob).1.map (fun r => r.url)).Nodup
    ∧ ∀ r ∈ d, List.find? (fun x => x.url = r.url) (mergeImages d mob).1 = some r := by
  have hde : desktopInsert [] d = d := by
    have h0 := desktopInsert_eq [] d (by simpa using hd)
    simpa using h0
  have hmb := mobileInsert_eq mob hm d 0
  have h1 : (mergeImages d mob).1 = d ++ mob.filter (fun i => !(hasUrl d i.url)) := by
    unfold mergeImages
    rw [hde, hmb]
  have h2 : (mergeImages d mob).2
      = (mob.filter (fun i => !(hasUrl d i.url))).length := by
    unfold mergeImages
    rw [hde, hmb]
    simp
  have hnd : ((mergeImages d mob).1.map (fun r => r.url)).Nodup := by
    rw [h1, List.map_append, List.nodup_append]
    refine ⟨hd, ((List.filter_sublist mob).map _).nodup hm, ?_⟩
    rw [List.disjoint_left]
    intro u hu hufil
    rcases List.mem_map.mp hufil with ⟨i, hifil, hiu⟩
    rcases List.mem_filter.mp hifil with ⟨_, hguard⟩
    have hmem : hasUrl d i.url = true := by
      rw [hasUrl_iff]
      rw [hiu]
      exact hu
    simp [hmem] at hguard
  refine ⟨h1, h2, hnd, ?_⟩
  intro r hr
  rw [h1, List.find?_append, find?_mem_nodup d r hd hr]
  rfl

theorem c1_merge_witness :
    (([recA, recB].map (fun r => r.url)).Nodup
      ∧ ([recBm, recC].map (fun r => r.url)).Nodup)
    ∧ (mergeImages [recA, recB] [recBm, recC]).1
        = [recA, recB] ++ [recBm, recC].filter (fun i => !(hasUrl [recA, recB] i.url))
    ∧ (∀ r ∈ [recA, recB],
        List.find? (fun x => x.url = r.url)
          (mergeImages [recA, recB] [recBm, recC]).1 = some r)
    ∧ mergeImages [recA, recB] [recBm, recC] = ([recA, recB, recC], 1) := by
  have T := c1_merge [recA, recB] [recBm, recC] (by decide) (by decide)
  exact ⟨⟨by decide, by decide⟩, T.1, T.2.2.2, by decide⟩
